import Mathlib

/-!
Verification of the free5gc-amf-operator charm (`src/charm.py`).

The charm is modelled as pure state-passing functions. External collaborators
(the Kubernetes API via lightkube, the Pebble container runtime) are modelled
by an explicit `World` state; every external call a handler issues is recorded
in a trace of `Call` values, and an `Outcome` records whether the handler ran
to completion, deferred the event, or let an exception escape.
-/

/-- Constant `BASE_CONFIG_PATH` from charm.py. -/
def BASE_CONFIG_PATH : String := "/free5gc/config"

/-- Constant `CONFIG_FILE_NAME` from charm.py. -/
def CONFIG_FILE_NAME : String := "amfcfg.yaml"

/-- Constant `NETWORK_ATTACHMENT_DEFINITION_NAME` from charm.py. -/
def NETWORK_ATTACHMENT_DEFINITION_NAME : String := "n2network-amf"

/-- The pod-network annotation key `k8s.v1.cni.cncf.io/networks` used in
`_annotation_added_to_statefulset` and `_add_statefulset_pod_network_annotation`. -/
def NETWORKS_ANNOT_KEY : String := "k8s.v1.cni.cncf.io/networks"

/-- The full config file path `f"{BASE_CONFIG_PATH}/{CONFIG_FILE_NAME}"`. -/
def CONFIG_FILE_PATH : String := BASE_CONFIG_PATH ++ "/" ++ CONFIG_FILE_NAME

/-- The charm configuration surface: keys `ngap-ip`, `ngap-gateway`,
`interface` of `self.model.config`. -/
structure Config where
  ngap_ip : String
  ngap_gateway : String
  interface : String
deriving DecidableEq, Repr

/-- Property `_config_ngap_cidr`. -/
def config_ngap_cidr (cfg : Config) : String := cfg.ngap_ip

/-- Property `_config_ngap_gateway`. -/
def config_ngap_gateway (cfg : Config) : String := cfg.ngap_gateway

/-- Property `_config_interface`. -/
def config_interface (cfg : Config) : String := cfg.interface

/-- A JSON value, as built by the Python dict/list/str/bool literals in
charm.py before being passed to `json.dumps`. -/
inductive Json where
  | str (s : String)
  | bool (b : Bool)
  | arr (xs : List Json)
  | obj (kvs : List (String × Json))

mutual

/-- `json.dumps` with Python defaults: item separator `", "`, key separator
`": "`, booleans `true`/`false`, strings double-quoted (no character in the
charm values needs escaping). -/
def Json.dumps : Json → String
  | .str s => "\"" ++ s ++ "\""
  | .bool true => "true"
  | .bool false => "false"
  | .arr xs => "[" ++ String.intercalate ", " (Json.dumpsList xs) ++ "]"
  | .obj kvs => "\x7b" ++ String.intercalate ", " (Json.dumpsObj kvs) ++ "\x7d"

/-- Serialize the elements of a JSON array. -/
def Json.dumpsList : List Json → List String
  | [] => []
  | x :: xs => Json.dumps x :: Json.dumpsList xs

/-- Serialize the key/value pairs of a JSON object. -/
def Json.dumpsObj : List (String × Json) → List String
  | [] => []
  | (k, v) :: kvs => ("\"" ++ k ++ "\": " ++ Json.dumps v) :: Json.dumpsObj kvs

end

/-- A `NetworkAttachmentDefinition` object as created by the charm:
`metadata.name` and the `spec["config"]` serialized CNI configuration. -/
structure NetworkAttachmentDefinition where
  name : String
  config : String
deriving DecidableEq, Repr

/-- The part of a `StatefulSet` object relevant to the charm:
`spec.template.metadata.annotations`, which is either absent (Python `None`)
or a dict, modelled as an association list. -/
structure StatefulSetObj where
  annots : Option (List (String × String))
deriving DecidableEq, Repr

/-- Python dict assignment `d[k] = v`: replace the value of an existing key in
place, otherwise append the new key at the end. -/
def dictSet (m : List (String × String)) (k v : String) : List (String × String) :=
  if (m.map Prod.fst).contains k then
    m.map (fun kv => if kv.1 = k then (k, v) else kv)
  else
    m ++ [(k, v)]

/-- A lightkube `ApiError`, identified by its status reason. -/
structure ApiError where
  reason : String
deriving DecidableEq, Repr

/-- An exception escaping a charm method: an uncaught `ApiError`, or the
`TypeError` raised by a membership test or item assignment on `None`. -/
inductive CharmError where
  | api (e : ApiError)
  | typeError
deriving DecidableEq, Repr

/-- The Kubernetes resources the charm touches: the
NetworkAttachmentDefinition (present or absent) and the application
StatefulSet (present or absent). -/
structure ClusterState where
  nad : Option NetworkAttachmentDefinition
  sts : Option StatefulSetObj
deriving DecidableEq, Repr

/-- Fault injection for the cluster API: an optional `ApiError` reason forced
on the NAD get, and one forced on the NAD create. `none` means the call
behaves nominally with respect to the cluster state. -/
structure Faults where
  getNad : Option String
  createNad : Option String
deriving DecidableEq, Repr

/-- Nominal API behaviour, no injected faults. -/
def noFaults : Faults := ⟨none, none⟩

/-- The container filesystem reachable through Pebble, path ↦ content. -/
structure FileSystem where
  files : List (String × String)
deriving DecidableEq, Repr

/-- The external world observed and mutated by the charm. -/
structure World where
  cluster : ClusterState
  fs : FileSystem
  canConnect : Bool
  faults : Faults
deriving DecidableEq, Repr

/-- One external call issued by a charm handler. -/
inductive Call where
  | getNad (name : String)
  | createNad (obj : NetworkAttachmentDefinition)
  | deleteNad (name : String)
  | getSts
  | patchSts (obj : StatefulSetObj)
  | pushFile (path content : String)
  | addLayer (serviceCommand : String) (environment : List (String × String))
  | replan
deriving DecidableEq, Repr

/-- Whether a call mutates cluster resources (create / patch / delete). -/
def Call.isMutating : Call → Bool
  | .createNad _ => true
  | .patchSts _ => true
  | .deleteNad _ => true
  | _ => false

/-- Whether a call is a NAD create. -/
def Call.isCreate : Call → Bool
  | .createNad _ => true
  | _ => false

/-- Whether a call is a StatefulSet merge patch. -/
def Call.isPatch : Call → Bool
  | .patchSts _ => true
  | _ => false

/-- Whether a call writes a file into the container. -/
def Call.isPush : Call → Bool
  | .pushFile _ _ => true
  | _ => false

/-- Whether a call addresses the process supervisor (Pebble layer/replan). -/
def Call.isSupervisor : Call → Bool
  | .addLayer _ _ => true
  | .replan => true
  | _ => false

/-- The NAD resource name a call addresses, if it addresses one. -/
def Call.nadName : Call → Option String
  | .getNad n => some n
  | .createNad o => some o.name
  | .deleteNad n => some n
  | _ => none

/-- The outcome of one handler invocation: normal return, `event.defer()`
with a `WaitingStatus` message, or an uncaught exception. -/
inductive Outcome where
  | completed
  | deferred (msg : String)
  | raised (e : CharmError)
deriving DecidableEq, Repr

/-- `client.get(res=NetworkAttachmentDefinition, name=..., ...)`: returns the
object when present, raises `ApiError` with reason `NotFound` when absent, or
the injected fault. -/
def clientGetNad (name : String) (w : World) :
    List Call × Except ApiError NetworkAttachmentDefinition :=
  ([.getNad name],
    match w.faults.getNad with
    | some r => .error ⟨r⟩
    | none =>
      match w.cluster.nad with
      | some n => .ok n
      | none => .error ⟨"NotFound"⟩)

/-- `client.get(res=StatefulSet, name=self.app.name, ...)`. -/
def clientGetSts (w : World) : List Call × Except ApiError StatefulSetObj :=
  ([.getSts],
    match w.cluster.sts with
    | some s => .ok s
    | none => .error ⟨"NotFound"⟩)

/-- `client.create(obj=nad, ...)`: creates the object when absent, raises
`ApiError` with reason `AlreadyExists` when present, or the injected fault. -/
def clientCreateNad (obj : NetworkAttachmentDefinition) (w : World) :
    List Call × Except ApiError World :=
  ([.createNad obj],
    match w.faults.createNad with
    | some r => .error ⟨r⟩
    | none =>
      match w.cluster.nad with
      | some _ => .error ⟨"AlreadyExists"⟩
      | none => .ok { w with cluster := { w.cluster with nad := some obj } })

/-- `client.patch(res=StatefulSet, obj=statefulset, patch_type=MERGE, ...)`:
the charm sends the whole modified object, so the merge replaces the
StatefulSet template annotations with those of `obj`. -/
def clientPatchSts (obj : StatefulSetObj) (w : World) :
    List Call × Except ApiError World :=
  ([.patchSts obj],
    match w.cluster.sts with
    | some _ => .ok { w with cluster := { w.cluster with sts := some obj } }
    | none => .error ⟨"NotFound"⟩)

/-- `client.delete(res=NetworkAttachmentDefinition, name=..., ...)`: removes
the object when present, raises `ApiError` with reason `NotFound` when
absent. -/
def clientDeleteNad (name : String) (w : World) :
    List Call × Except ApiError World :=
  ([.deleteNad name],
    match w.cluster.nad with
    | some _ => .ok { w with cluster := { w.cluster with nad := none } }
    | none => .error ⟨"NotFound"⟩)

/-- Property `_network_attachment_definition_created`: `client.get` the NAD;
on success return `True`; on `ApiError` return `False` whether or not the
reason is `NotFound` (the `except` clause does not re-raise, so control falls
through to the trailing `return False`). -/
def network_attachment_definition_created (w : World) : List Call × Bool :=
  let (t, r) := clientGetNad NETWORK_ATTACHMENT_DEFINITION_NAME w
  match r with
  | .ok _ => (t, true)
  | .error e => if e.reason = "NotFound" then (t, false) else (t, false)

/-- Property `_annotation_added_to_statefulset`: `client.get` the StatefulSet
(an `ApiError` here is uncaught), read `spec.template.metadata.annotations`,
and test `"k8s.v1.cni.cncf.io/networks" in current_annotation` — a `TypeError`
when the annotations attribute is `None`. -/
def annot_added_to_statefulset (w : World) : List Call × Except CharmError Bool :=
  let (t, r) := clientGetSts w
  match r with
  | .error e => (t, .error (.api e))
  | .ok sts =>
    match sts.annots with
    | none => (t, .error .typeError)
    | some m => (t, .ok ((m.map Prod.fst).contains NETWORKS_ANNOT_KEY))

/-- The `nad_spec` dict literal built in
`_create_network_attachement_definition`. -/
def nad_spec (cfg : Config) : Json :=
  .obj [("cniVersion", .str "0.3.1"),
        ("plugins", .arr [
          .obj [("type", .str "macvlan"),
                ("capabilities", .obj [("ips", .bool true)]),
                ("master", .str (config_interface cfg)),
                ("mode", .str "bridge"),
                ("ipam", .obj [("type", .str "static"),
                               ("routes", .arr [.obj [("dst", .str "0.0.0.0/0"),
                                                      ("gw", .str (config_ngap_gateway cfg))]])])],
          .obj [("capabilities", .obj [("mac", .bool true)]),
                ("type", .str "tuning")]])]

/-- The `NetworkAttachmentDefinition` object built in
`_create_network_attachement_definition`: fixed name, `spec` holding the
`json.dumps` of `nad_spec`. -/
def nadObjFor (cfg : Config) : NetworkAttachmentDefinition :=
  { name := NETWORK_ATTACHMENT_DEFINITION_NAME,
    config := (nad_spec cfg).dumps }

/-- Method `_create_network_attachement_definition`: build the NAD and
`client.create` it; any `ApiError` is uncaught. -/
def create_network_attachement_definition (cfg : Config) (w : World) :
    List Call × Except CharmError World :=
  let (t, r) := clientCreateNad (nadObjFor cfg) w
  match r with
  | .ok w2 => (t, .ok w2)
  | .error e => (t, .error (.api e))

/-- Method `_delete_network_attachement_definition`: `client.delete` the NAD;
any `ApiError` (including `NotFound` when it is absent) is uncaught. -/
def delete_network_attachement_definition (w : World) :
    List Call × Except CharmError World :=
  let (t, r) := clientDeleteNad NETWORK_ATTACHMENT_DEFINITION_NAME w
  match r with
  | .ok w2 => (t, .ok w2)
  | .error e => (t, .error (.api e))

/-- The `multus_annotation` list literal built in
`_add_statefulset_pod_network_annotation`. -/
def multus_annot (cfg : Config) : Json :=
  .arr [.obj [("name", .str NETWORK_ATTACHMENT_DEFINITION_NAME),
              ("interface", .str "n2"),
              ("ips", .str (config_ngap_cidr cfg)),
              ("gateway", .str (config_ngap_gateway cfg))]]

/-- Method `_add_statefulset_pod_network_annotation`: `client.get` the
StatefulSet, insert the serialized multus entry under the networks key in its
template annotations (a `TypeError` when the annotations attribute is
`None`), and `client.patch` the whole object back as a merge patch. -/
def add_statefulset_pod_network_annot (cfg : Config) (w : World) :
    List Call × Except CharmError World :=
  let (t1, r1) := clientGetSts w
  match r1 with
  | .error e => (t1, .error (.api e))
  | .ok sts =>
    match sts.annots with
    | none => (t1, .error .typeError)
    | some m =>
      let sts2 : StatefulSetObj :=
        { annots := some (dictSet m NETWORKS_ANNOT_KEY (multus_annot cfg).dumps) }
      let (t2, r2) := clientPatchSts sts2 w
      match r2 with
      | .ok w2 => (t1 ++ t2, .ok w2)
      | .error e => (t1 ++ t2, .error (.api e))

/-- Modelled from the spec: the jinja template `src/templates/amfcfg.yaml.j2`
is not in the source tree. The spec describes the renderer as a pure function
of the NGAP IP address (`render(ipAddress: string) -> bytes`) whose rendered
output contains that address (Scenario A expects content containing the
configured IP). -/
def render (ngap_ip_address : String) : String :=
  "ngapIpList:\n  - " ++ ngap_ip_address ++ "\n"

/-- The characters before the first occurrence of a separator character. -/
def charsBefore (sep : Char) : List Char → List Char
  | [] => []
  | c :: cs => if c = sep then [] else c :: charsBefore sep cs

/-- Python `s.split("/")[0]`: for a one-character separator this is the part
of the string before its first occurrence (the whole string when the
separator is absent). -/
def splitSlashHead (s : String) : String :=
  ⟨charsBefore '/' s.data⟩

/-- Method `_write_config_file`: render the template with
`ngap_ip_address=self._config_ngap_cidr.split("/")[0]` and push the content
to the fixed config path. -/
def write_config_file (cfg : Config) (w : World) : List Call × World :=
  let content := render (splitSlashHead (config_ngap_cidr cfg))
  ([.pushFile CONFIG_FILE_PATH content],
    { w with fs := { files := dictSet w.fs.files CONFIG_FILE_PATH content } })

/-- Property `_config_file_is_written`: `container.exists` on the fixed
config path. -/
def config_file_is_written (w : World) : Bool :=
  (w.fs.files.map Prod.fst).contains CONFIG_FILE_PATH

/-- The tail of `_on_config_changed` after the NAD is known to exist: check
the annotation and add it when missing; exceptions escape the handler. -/
def on_config_changed_annot_step (cfg : Config) (w : World) (acc : List Call) :
    List Call × World × Outcome :=
  let (t3, r3) := annot_added_to_statefulset w
  match r3 with
  | .error e => (acc ++ t3, w, .raised e)
  | .ok true => (acc ++ t3, w, .completed)
  | .ok false =>
    let (t4, r4) := add_statefulset_pod_network_annot cfg w
    match r4 with
    | .error e => (acc ++ t3 ++ t4, w, .raised e)
    | .ok w2 => (acc ++ t3 ++ t4, w2, .completed)

/-- Handler `_on_config_changed`: defer when the container is unreachable;
otherwise write the config file, create the NAD when absent, and add the
StatefulSet annotation when absent. -/
def on_config_changed (cfg : Config) (w : World) : List Call × World × Outcome :=
  if w.canConnect = false then
    ([], w, .deferred "Waiting for container to be ready")
  else
    let (t1, w1) := write_config_file cfg w
    let (t2, created) := network_attachment_definition_created w1
    if created then
      on_config_changed_annot_step cfg w1 (t1 ++ t2)
    else
      let (t2b, r) := create_network_attachement_definition cfg w1
      match r with
      | .error e => (t1 ++ t2 ++ t2b, w1, .raised e)
      | .ok w2 => on_config_changed_annot_step cfg w2 (t1 ++ t2 ++ t2b)

/-- Handler `_on_remove`: unconditionally call
`_delete_network_attachement_definition`; exceptions escape the handler. -/
def on_remove (w : World) : List Call × World × Outcome :=
  let (t, r) := delete_network_attachement_definition w
  match r with
  | .ok w2 => (t, w2, .completed)
  | .error e => (t, w, .raised e)

/-- Property `_environment_variables`: always exactly `GIN_MODE=release`. -/
def environment_variables : List (String × String) :=
  [("GIN_MODE", "release")]

/-- The service command of `_pebble_layer`:
`f"./amf -c {BASE_CONFIG_PATH}/{CONFIG_FILE_NAME}"`. -/
def pebble_layer_command : String :=
  "./amf -c " ++ BASE_CONFIG_PATH ++ "/" ++ CONFIG_FILE_NAME

/-- Handler `_on_free5gc_amf_pebble_ready`: defer when the container is
unreachable or the config file has not been written; otherwise add the Pebble
layer and replan. -/
def on_free5gc_amf_pebble_ready (w : World) : List Call × World × Outcome :=
  if w.canConnect = false then
    ([], w, .deferred "Waiting for container to be ready")
  else if config_file_is_written w = false then
    ([], w, .deferred "Waiting for config file to be written")
  else
    ([.addLayer pebble_layer_command environment_variables, .replan], w, .completed)

/-- Whether the second character list occurs at the head of the first. -/
def charsLeadWith : List Char → List Char → Bool
  | _, [] => true
  | [], _ :: _ => false
  | c :: cs, d :: ds => c = d && charsLeadWith cs ds

/-- Whether the second character list occurs somewhere inside the first. -/
def charsContain (s pat : List Char) : Bool :=
  charsLeadWith s pat ||
    match s with
    | [] => false
    | _ :: cs => charsContain cs pat

/-- Whether a string contains a given substring. -/
def strContains (s sub : String) : Bool :=
  charsContain s.data sub.data

/-- Whether a call either addresses no NAD resource or addresses it under the
single well-known constant name. -/
def nadNameOk (c : Call) : Bool :=
  match c.nadName with
  | none => true
  | some n => n = NETWORK_ATTACHMENT_DEFINITION_NAME

/-- Scenario A configuration:
`{ngap-ip: "10.0.0.5/24", ngap-gateway: "10.0.0.1", interface: "eth1"}`. -/
def cfgA : Config :=
  { ngap_ip := "10.0.0.5/24", ngap_gateway := "10.0.0.1", interface := "eth1" }

/-- Scenario A world: attachment absent, StatefulSet present with an empty
annotations mapping, empty container filesystem, connection ready, nominal
API. -/
def wA : World :=
  { cluster := { nad := none, sts := some { annots := some [] } },
    fs := { files := [] },
    canConnect := true,
    faults := noFaults }

/-- A world whose container connection is not ready. -/
def wNotReady : World :=
  { wA with canConnect := false }

/-- A world in which the NAD create call is rejected with `AlreadyExists`
(for instance, a concurrent creation between the existence check and the
create). -/
def wCreateExists : World :=
  { wA with faults := { getNad := none, createNad := some "AlreadyExists" } }

/-- A world in which the NAD get fails with a non-NotFound API error
(permission denied). -/
def wGetForbidden : World :=
  { wA with faults := { getNad := some "Forbidden", createNad := none } }

/-- A world whose StatefulSet pod-template metadata has no annotations
mapping at all (Python `None`). -/
def wNoneAnnots : World :=
  { wA with cluster := { nad := none, sts := some { annots := none } } }

/-- The patched StatefulSet object produced by Scenario A. -/
def stsPatchedA : StatefulSetObj :=
  { annots := some [(NETWORKS_ANNOT_KEY, (multus_annot cfgA).dumps)] }

set_option maxRecDepth 10000

/-- C1: for the Scenario A configuration with the attachment absent, the
annotation absent and the connection ready, one `_on_config_changed` pass
completes, writes the config file with rendered content containing
`10.0.0.5`, issues exactly one create call for the attachment whose plugin
spec has `master: eth1` and a static-IPAM route `0.0.0.0/0` via `10.0.0.1`,
and issues exactly one merge patch adding the networks annotation entry
referencing the attachment name with `ips: 10.0.0.5/24`. -/
theorem c1_scenarioA :
    (on_config_changed cfgA wA).2.2 = Outcome.completed ∧
    (on_config_changed cfgA wA).2.1.fs.files = [(CONFIG_FILE_PATH, render "10.0.0.5")] ∧
    strContains (render "10.0.0.5") "10.0.0.5" = true ∧
    ((on_config_changed cfgA wA).1.filter Call.isCreate) = [Call.createNad (nadObjFor cfgA)] ∧
    strContains (nadObjFor cfgA).config "\"master\": \"eth1\"" = true ∧
    strContains (nadObjFor cfgA).config
      "\"ipam\": \x7b\"type\": \"static\", \"routes\": [\x7b\"dst\": \"0.0.0.0/0\", \"gw\": \"10.0.0.1\"\x7d]\x7d"
      = true ∧
    ((on_config_changed cfgA wA).1.filter Call.isPatch) = [Call.patchSts stsPatchedA] ∧
    strContains (multus_annot cfgA).dumps "\"name\": \"n2network-amf\"" = true ∧
    strContains (multus_annot cfgA).dumps "\"ips\": \"10.0.0.5/24\"" = true := by
  decide

/-- C3: whenever the container connectivity probe returns false,
`_on_config_changed` issues no calls at all (in particular no
cluster-mutating call and no file write), leaves the world unchanged, and
defers. -/
theorem c3_defer_no_mutation (cfg : Config) (w : World) (h : w.canConnect = false) :
    on_config_changed cfg w = ([], w, Outcome.deferred "Waiting for container to be ready") := by
  simp [on_config_changed, h]

/-- Witness for C3 at the concrete not-ready world. -/
theorem c3_defer_no_mutation_witness :
    on_config_changed cfgA wNotReady =
      ([], wNotReady, Outcome.deferred "Waiting for container to be ready") :=
  c3_defer_no_mutation cfgA wNotReady rfl

/-- C4 counterexample: `_on_remove` on a world where the attachment is absent
does issue the delete call, but the resulting `NotFound` ApiError escapes to
the caller instead of being tolerated. -/
theorem c4_delete_notfound_raises_cex :
    (on_remove wA).1 = [Call.deleteNad NETWORK_ATTACHMENT_DEFINITION_NAME] ∧
    (on_remove wA).2.2 = Outcome.raised (.api ⟨"NotFound"⟩) ∧
    (on_remove wA).2.2 ≠ Outcome.completed := by
  decide

/-- C4 amended: `_on_remove` always issues exactly one delete call for the
attachment resource regardless of prior state, but a `NotFound` response from
that delete propagates to the caller (the charm has no handler for it). -/
theorem c4_delete_always_issued (w : World) :
    (on_remove w).1 = [Call.deleteNad NETWORK_ATTACHMENT_DEFINITION_NAME] ∧
    (w.cluster.nad = none →
      (on_remove w).2.2 = Outcome.raised (.api ⟨"NotFound"⟩)) := by
  constructor
  · cases hn : w.cluster.nad <;>
      simp [on_remove, delete_network_attachement_definition, clientDeleteNad, hn]
  · intro h
    simp [on_remove, delete_network_attachement_definition, clientDeleteNad, h]

/-- Witness for C4 at the concrete attachment-absent world. -/
theorem c4_delete_always_issued_witness :
    (on_remove wA).1 = [Call.deleteNad NETWORK_ATTACHMENT_DEFINITION_NAME] ∧
    (on_remove wA).2.2 = Outcome.raised (.api ⟨"NotFound"⟩) :=
  ⟨(c4_delete_always_issued wA).1, (c4_delete_always_issued wA).2 rfl⟩

/-- C5 counterexample: when the NAD create is rejected with `AlreadyExists`,
the pass raises that error to the caller and never reaches the annotation
steps, contrary to the claim that the error does not propagate and the pass
continues. -/
theorem c5_alreadyexists_propagates_cex :
    (on_config_changed cfgA wCreateExists).2.2 = Outcome.raised (.api ⟨"AlreadyExists"⟩) ∧
    (on_config_changed cfgA wCreateExists).2.2 ≠ Outcome.completed ∧
    (on_config_changed cfgA wCreateExists).1.filter Call.isPatch = [] := by
  decide

/-- C5 amended: if the create call for the network attachment fails with
`AlreadyExists`, `_on_config_changed` lets the error escape to the caller and
aborts the pass: the create call is issued once and no annotation patch is
attempted (the charm has no `AlreadyExists` handling). -/
theorem c5_alreadyexists_aborts_pass (cfg : Config) (w : World)
    (hcc : w.canConnect = true) (hg : w.faults.getNad = none)
    (hn : w.cluster.nad = none) (hcf : w.faults.createNad = some "AlreadyExists") :
    (on_config_changed cfg w).2.2 = Outcome.raised (.api ⟨"AlreadyExists"⟩) ∧
    (on_config_changed cfg w).1.filter Call.isCreate = [Call.createNad (nadObjFor cfg)] ∧
    (on_config_changed cfg w).1.filter Call.isPatch = [] := by
  simp [on_config_changed, write_config_file, network_attachment_definition_created,
        clientGetNad, create_network_attachement_definition, clientCreateNad,
        hcc, hg, hn, hcf, Call.isCreate, Call.isPatch]

/-- Witness for C5 at the concrete world whose create is rejected. -/
theorem c5_alreadyexists_aborts_pass_witness :
    (on_config_changed cfgA wCreateExists).2.2 = Outcome.raised (.api ⟨"AlreadyExists"⟩) ∧
    (on_config_changed cfgA wCreateExists).1.filter Call.isCreate =
      [Call.createNad (nadObjFor cfgA)] ∧
    (on_config_changed cfgA wCreateExists).1.filter Call.isPatch = [] :=
  c5_alreadyexists_aborts_pass cfgA wCreateExists rfl rfl rfl rfl

/-- C6 counterexample: with the attachment-existence get failing with
`Forbidden` (permission denied), the pass does not abort and does not
propagate the error: it proceeds to create the attachment and patch the
annotation, completing normally. -/
theorem c6_get_error_swallowed_cex :
    (on_config_changed cfgA wGetForbidden).2.2 = Outcome.completed ∧
    (on_config_changed cfgA wGetForbidden).1.filter Call.isCreate =
      [Call.createNad (nadObjFor cfgA)] ∧
    (on_config_changed cfgA wGetForbidden).1.filter Call.isPatch =
      [Call.patchSts stsPatchedA] := by
  decide

/-- C6 amended: every `ApiError` on the attachment-existence get — `NotFound`
or any other reason — is swallowed by `_network_attachment_definition_created`,
which reports the attachment absent; no error is propagated and the pass goes
on to attempt creation. -/
theorem c6_get_error_treated_absent (w : World) (r : String)
    (h : w.faults.getNad = some r) :
    network_attachment_definition_created w =
      ([Call.getNad NETWORK_ATTACHMENT_DEFINITION_NAME], false) := by
  simp [network_attachment_definition_created, clientGetNad, h]

/-- Witness for C6 at the concrete permission-denied world. -/
theorem c6_get_error_treated_absent_witness :
    network_attachment_definition_created wGetForbidden =
      ([Call.getNad NETWORK_ATTACHMENT_DEFINITION_NAME], false) :=
  c6_get_error_treated_absent wGetForbidden "Forbidden" rfl

/-- C8: `_on_free5gc_amf_pebble_ready` defers with zero calls (in particular
zero supervisor calls) when the container connection is not live, and also
when the connection is live but the config file has not been written. -/
theorem c8_pebble_ready_defers (w : World) :
    (w.canConnect = false →
      on_free5gc_amf_pebble_ready w =
        ([], w, Outcome.deferred "Waiting for container to be ready")) ∧
    (w.canConnect = true → config_file_is_written w = false →
      on_free5gc_amf_pebble_ready w =
        ([], w, Outcome.deferred "Waiting for config file to be written")) := by
  constructor
  · intro h
    simp [on_free5gc_amf_pebble_ready, h]
  · intro h1 h2
    simp [on_free5gc_amf_pebble_ready, h1, h2]

/-- Witness for C8: the not-ready world defers on connectivity, and the
Scenario A world (connected, no file yet) defers on the missing config
file. -/
theorem c8_pebble_ready_defers_witness :
    on_free5gc_amf_pebble_ready wNotReady =
      ([], wNotReady, Outcome.deferred "Waiting for container to be ready") ∧
    on_free5gc_amf_pebble_ready wA =
      ([], wA, Outcome.deferred "Waiting for config file to be written") :=
  ⟨(c8_pebble_ready_defers wNotReady).1 rfl,
   (c8_pebble_ready_defers wA).2 rfl rfl⟩

theorem dictSet_key_mem (m : List (String × String)) (k v : String) :
    ∃ x, (k, x) ∈ dictSet m k v := by
  by_cases h : (m.map Prod.fst).contains k
  · simp only [dictSet, h, if_true]
    have h2 : k ∈ m.map Prod.fst := List.elem_iff.mp h
    obtain ⟨kv, hkv, hk⟩ := List.mem_map.mp h2
    exact ⟨v, List.mem_map.mpr ⟨kv, hkv, by simp [hk]⟩⟩
  · have hb : (m.map Prod.fst).contains k = false := by
      revert h; cases (m.map Prod.fst).contains k <;> simp
    rw [dictSet, hb]
    exact ⟨v, by simp⟩

theorem patch_not_in_of_filter_nil {l : List Call}
    (hl : l.filter Call.isPatch = []) {i : Nat} {obj : StatefulSetObj}
    (h : l[i]? = some (Call.patchSts obj)) : False := by
  have hmem : Call.patchSts obj ∈ l := List.getElem?_mem h
  have h2 : Call.patchSts obj ∈ l.filter Call.isPatch :=
    List.mem_filter.mpr ⟨hmem, rfl⟩
  rw [hl] at h2
  simp at h2

theorem annot_step_nadNameOk (cfg : Config) (w : World) (acc : List Call)
    (h : acc.all nadNameOk = true) :
    (on_config_changed_annot_step cfg w acc).1.all nadNameOk = true := by
  unfold on_config_changed_annot_step annot_added_to_statefulset
    add_statefulset_pod_network_annot clientGetSts clientPatchSts
  rcases hsts : w.cluster.sts with _ | ⟨_ | m⟩
  · simp_all [nadNameOk, Call.nadName]
  · simp_all [nadNameOk, Call.nadName]
  · cases hm : (m.map Prod.fst).contains NETWORKS_ANNOT_KEY <;>
      simp_all [nadNameOk, Call.nadName]

theorem on_config_changed_nadNameOk (cfg : Config) (w : World) :
    (on_config_changed cfg w).1.all nadNameOk = true := by
  unfold on_config_changed write_config_file network_attachment_definition_created
    create_network_attachement_definition clientGetNad clientCreateNad
  cases hcc : w.canConnect
  · simp
  · rcases hfg : w.faults.getNad with _ | r
    · rcases hnad : w.cluster.nad with _ | n
      · rcases hfc : w.faults.createNad with _ | r2
        · simp only [hcc, hfg, hnad, hfc, ite_self]
          simp only [Bool.true_eq_false, if_false]
          refine annot_step_nadNameOk _ _ _ ?_
          simp [nadNameOk, Call.nadName, nadObjFor]
        · simp [hcc, hfg, hnad, hfc, nadNameOk, Call.nadName, nadObjFor]
      · simp only [hcc, hfg, hnad, ite_self]
        simp only [Bool.true_eq_false, if_false, if_true]
        refine annot_step_nadNameOk _ _ _ ?_
        simp [nadNameOk, Call.nadName, nadObjFor]
    · rcases hnad : w.cluster.nad with _ | n
      · rcases hfc : w.faults.createNad with _ | r2
        · simp only [hcc, hfg, hnad, hfc, ite_self]
          simp only [Bool.true_eq_false, if_false]
          refine annot_step_nadNameOk _ _ _ ?_
          simp [nadNameOk, Call.nadName, nadObjFor]
        · simp [hcc, hfg, hnad, hfc, nadNameOk, Call.nadName, nadObjFor]
      · rcases hfc : w.faults.createNad with _ | r2
        · simp [hcc, hfg, hnad, hfc, nadNameOk, Call.nadName, nadObjFor]
        · simp [hcc, hfg, hnad, hfc, nadNameOk, Call.nadName, nadObjFor]

theorem on_remove_nadNameOk (w : World) : (on_remove w).1.all nadNameOk = true := by
  cases hn : w.cluster.nad <;>
    simp [on_remove, delete_network_attachement_definition, clientDeleteNad, hn,
      nadNameOk, Call.nadName]

/-- C2: for every configuration and world with the connection ready and the
cluster API nominal (no external tampering), if a `_on_config_changed` pass
completes, then a second pass on the resulting world issues zero create calls
and zero patch calls, leaves the cluster resources (NetworkAttachment and
StatefulSet annotation) unchanged, still re-writes the config file exactly
once, and completes. -/
theorem c2_second_pass_idempotent (cfg : Config) (w : World)
    (hcc : w.canConnect = true) (hf : w.faults = noFaults)
    (hdone : (on_config_changed cfg w).2.2 = Outcome.completed) :
    (on_config_changed cfg (on_config_changed cfg w).2.1).1.filter Call.isCreate = [] ∧
    (on_config_changed cfg (on_config_changed cfg w).2.1).1.filter Call.isPatch = [] ∧
    (on_config_changed cfg (on_config_changed cfg w).2.1).2.1.cluster =
      (on_config_changed cfg w).2.1.cluster ∧
    ((on_config_changed cfg (on_config_changed cfg w).2.1).1.filter Call.isPush).length = 1 ∧
    (on_config_changed cfg (on_config_changed cfg w).2.1).2.2 = Outcome.completed := by
  have hfg : w.faults.getNad = none := by rw [hf]; rfl
  have hfc : w.faults.createNad = none := by rw [hf]; rfl
  rcases hnad : w.cluster.nad with _ | n
  · rcases hsts : w.cluster.sts with _ | ⟨_ | m⟩
    · simp [on_config_changed, write_config_file, network_attachment_definition_created,
        create_network_attachement_definition, clientGetNad, clientCreateNad,
        on_config_changed_annot_step, annot_added_to_statefulset,
        add_statefulset_pod_network_annot, clientGetSts, clientPatchSts,
        hcc, hfg, hnad, hfc, hsts] at hdone
    · simp [on_config_changed, write_config_file, network_attachment_definition_created,
        create_network_attachement_definition, clientGetNad, clientCreateNad,
        on_config_changed_annot_step, annot_added_to_statefulset,
        add_statefulset_pod_network_annot, clientGetSts, clientPatchSts,
        hcc, hfg, hnad, hfc, hsts] at hdone
    · by_cases hm : NETWORKS_ANNOT_KEY ∈ m.map Prod.fst
      · simp [on_config_changed, write_config_file, network_attachment_definition_created,
          create_network_attachement_definition, clientGetNad, clientCreateNad,
          on_config_changed_annot_step, annot_added_to_statefulset,
          add_statefulset_pod_network_annot, clientGetSts, clientPatchSts,
          hcc, hfg, hnad, hfc, hsts, hm, dictSet_key_mem,
          Call.isCreate, Call.isPatch, Call.isPush]
      · simp [on_config_changed, write_config_file, network_attachment_definition_created,
          create_network_attachement_definition, clientGetNad, clientCreateNad,
          on_config_changed_annot_step, annot_added_to_statefulset,
          add_statefulset_pod_network_annot, clientGetSts, clientPatchSts,
          hcc, hfg, hnad, hfc, hsts, hm, dictSet_key_mem,
          Call.isCreate, Call.isPatch, Call.isPush]
  · rcases hsts : w.cluster.sts with _ | ⟨_ | m⟩
    · simp [on_config_changed, write_config_file, network_attachment_definition_created,
        create_network_attachement_definition, clientGetNad, clientCreateNad,
        on_config_changed_annot_step, annot_added_to_statefulset,
        add_statefulset_pod_network_annot, clientGetSts, clientPatchSts,
        hcc, hfg, hnad, hfc, hsts] at hdone
    · simp [on_config_changed, write_config_file, network_attachment_definition_created,
        create_network_attachement_definition, clientGetNad, clientCreateNad,
        on_config_changed_annot_step, annot_added_to_statefulset,
        add_statefulset_pod_network_annot, clientGetSts, clientPatchSts,
        hcc, hfg, hnad, hfc, hsts] at hdone
    · by_cases hm : NETWORKS_ANNOT_KEY ∈ m.map Prod.fst
      · simp [on_config_changed, write_config_file, network_attachment_definition_created,
          create_network_attachement_definition, clientGetNad, clientCreateNad,
          on_config_changed_annot_step, annot_added_to_statefulset,
          add_statefulset_pod_network_annot, clientGetSts, clientPatchSts,
          hcc, hfg, hnad, hfc, hsts, hm, dictSet_key_mem,
          Call.isCreate, Call.isPatch, Call.isPush]
      · simp [on_config_changed, write_config_file, network_attachment_definition_created,
          create_network_attachement_definition, clientGetNad, clientCreateNad,
          on_config_changed_annot_step, annot_added_to_statefulset,
          add_statefulset_pod_network_annot, clientGetSts, clientPatchSts,
          hcc, hfg, hnad, hfc, hsts, hm, dictSet_key_mem,
          Call.isCreate, Call.isPatch, Call.isPush]

/-- Witness for C2 at the Scenario A configuration and world. -/
theorem c2_second_pass_idempotent_witness :
    (on_config_changed cfgA (on_config_changed cfgA wA).2.1).1.filter Call.isCreate = [] ∧
    (on_config_changed cfgA (on_config_changed cfgA wA).2.1).1.filter Call.isPatch = [] ∧
    (on_config_changed cfgA (on_config_changed cfgA wA).2.1).2.1.cluster =
      (on_config_changed cfgA wA).2.1.cluster ∧
    ((on_config_changed cfgA (on_config_changed cfgA wA).2.1).1.filter Call.isPush).length = 1 ∧
    (on_config_changed cfgA (on_config_changed cfgA wA).2.1).2.2 = Outcome.completed :=
  c2_second_pass_idempotent cfgA wA rfl rfl (by decide)

/-- C7: within a single `_on_config_changed` pass, an annotation merge patch
at trace position `i` implies either a NAD create call occurred strictly
earlier in the same trace, or the attachment-existence check reported the
attachment already present. -/
theorem c7_patch_after_attachment_present (cfg : Config) (w : World) (i : Nat)
    (obj : StatefulSetObj)
    (h : (on_config_changed cfg w).1[i]? = some (Call.patchSts obj)) :
    (∃ j o, j < i ∧ (on_config_changed cfg w).1[j]? = some (Call.createNad o)) ∨
    (network_attachment_definition_created w).2 = true := by
  cases hcc : w.canConnect
  · simp [on_config_changed, hcc] at h
  · rcases hfg : w.faults.getNad with _ | r
    · rcases hnad : w.cluster.nad with _ | n
      · rcases hfc : w.faults.createNad with _ | r2
        · rcases hsts : w.cluster.sts with _ | ⟨_ | m⟩
          · simp only [on_config_changed, write_config_file,
              network_attachment_definition_created, create_network_attachement_definition,
              clientGetNad, clientCreateNad, on_config_changed_annot_step,
              annot_added_to_statefulset, add_statefulset_pod_network_annot,
              clientGetSts, clientPatchSts, ite_self, hcc, hfg, hnad, hfc, hsts] at h
            simp at h
            exact (patch_not_in_of_filter_nil (by rfl) h).elim
          · simp only [on_config_changed, write_config_file,
              network_attachment_definition_created, create_network_attachement_definition,
              clientGetNad, clientCreateNad, on_config_changed_annot_step,
              annot_added_to_statefulset, add_statefulset_pod_network_annot,
              clientGetSts, clientPatchSts, ite_self, hcc, hfg, hnad, hfc, hsts] at h
            simp at h
            exact (patch_not_in_of_filter_nil (by rfl) h).elim
          · cases hm : (m.map Prod.fst).contains NETWORKS_ANNOT_KEY
            · simp only [on_config_changed, write_config_file,
                network_attachment_definition_created, create_network_attachement_definition,
                clientGetNad, clientCreateNad, on_config_changed_annot_step,
                annot_added_to_statefulset, add_statefulset_pod_network_annot,
                clientGetSts, clientPatchSts, ite_self, hcc, hfg, hnad, hfc, hsts, hm] at h ⊢
              left
              rcases i with _ | _ | _ | i
              · simp at h
              · simp at h
              · simp at h
              · exact ⟨2, nadObjFor cfg, by omega, by rfl⟩
            · simp only [on_config_changed, write_config_file,
                network_attachment_definition_created, create_network_attachement_definition,
                clientGetNad, clientCreateNad, on_config_changed_annot_step,
                annot_added_to_statefulset, add_statefulset_pod_network_annot,
                clientGetSts, clientPatchSts, ite_self, hcc, hfg, hnad, hfc, hsts, hm] at h
              simp at h
              exact (patch_not_in_of_filter_nil (by rfl) h).elim
        · simp only [on_config_changed, write_config_file,
            network_attachment_definition_created, create_network_attachement_definition,
            clientGetNad, clientCreateNad, on_config_changed_annot_step,
            annot_added_to_statefulset, add_statefulset_pod_network_annot,
            clientGetSts, clientPatchSts, ite_self, hcc, hfg, hnad, hfc] at h
          simp at h
          exact (patch_not_in_of_filter_nil (by rfl) h).elim
      · right
        simp [network_attachment_definition_created, clientGetNad, hfg, hnad]
    · rcases hnad : w.cluster.nad with _ | n
      · rcases hfc : w.faults.createNad with _ | r2
        · rcases hsts : w.cluster.sts with _ | ⟨_ | m⟩
          · simp only [on_config_changed, write_config_file,
              network_attachment_definition_created, create_network_attachement_definition,
              clientGetNad, clientCreateNad, on_config_changed_annot_step,
              annot_added_to_statefulset, add_statefulset_pod_network_annot,
              clientGetSts, clientPatchSts, ite_self, hcc, hfg, hnad, hfc, hsts] at h
            simp at h
            exact (patch_not_in_of_filter_nil (by rfl) h).elim
          · simp only [on_config_changed, write_config_file,
              network_attachment_definition_created, create_network_attachement_definition,
              clientGetNad, clientCreateNad, on_config_changed_annot_step,
              annot_added_to_statefulset, add_statefulset_pod_network_annot,
              clientGetSts, clientPatchSts, ite_self, hcc, hfg, hnad, hfc, hsts] at h
            simp at h
            exact (patch_not_in_of_filter_nil (by rfl) h).elim
          · cases hm : (m.map Prod.fst).contains NETWORKS_ANNOT_KEY
            · simp only [on_config_changed, write_config_file,
                network_attachment_definition_created, create_network_attachement_definition,
                clientGetNad, clientCreateNad, on_config_changed_annot_step,
                annot_added_to_statefulset, add_statefulset_pod_network_annot,
                clientGetSts, clientPatchSts, ite_self, hcc, hfg, hnad, hfc, hsts, hm] at h ⊢
              left
              rcases i with _ | _ | _ | i
              · simp at h
              · simp at h
              · simp at h
              · exact ⟨2, nadObjFor cfg, by omega, by rfl⟩
            · simp only [on_config_changed, write_config_file,
                network_attachment_definition_created, create_network_attachement_definition,
                clientGetNad, clientCreateNad, on_config_changed_annot_step,
                annot_added_to_statefulset, add_statefulset_pod_network_annot,
                clientGetSts, clientPatchSts, ite_self, hcc, hfg, hnad, hfc, hsts, hm] at h
              simp at h
              exact (patch_not_in_of_filter_nil (by rfl) h).elim
        · simp only [on_config_changed, write_config_file,
            network_attachment_definition_created, create_network_attachement_definition,
            clientGetNad, clientCreateNad, on_config_changed_annot_step,
            annot_added_to_statefulset, add_statefulset_pod_network_annot,
            clientGetSts, clientPatchSts, ite_self, hcc, hfg, hnad, hfc] at h
          simp at h
          exact (patch_not_in_of_filter_nil (by rfl) h).elim
      · rcases hfc : w.faults.createNad with _ | r2
        · simp only [on_config_changed, write_config_file,
            network_attachment_definition_created, create_network_attachement_definition,
            clientGetNad, clientCreateNad, on_config_changed_annot_step,
            annot_added_to_statefulset, add_statefulset_pod_network_annot,
            clientGetSts, clientPatchSts, ite_self, hcc, hfg, hnad, hfc] at h
          simp at h
          exact (patch_not_in_of_filter_nil (by rfl) h).elim
        · simp only [on_config_changed, write_config_file,
            network_attachment_definition_created, create_network_attachement_definition,
            clientGetNad, clientCreateNad, on_config_changed_annot_step,
            annot_added_to_statefulset, add_statefulset_pod_network_annot,
            clientGetSts, clientPatchSts, ite_self, hcc, hfg, hnad, hfc] at h
          simp at h
          exact (patch_not_in_of_filter_nil (by rfl) h).elim

/-- Witness for C7: in the Scenario A trace the merge patch sits at index 5
and the create call at index 2. -/
theorem c7_patch_after_attachment_present_witness :
    (∃ j o, j < 5 ∧ (on_config_changed cfgA wA).1[j]? = some (Call.createNad o)) ∨
    (network_attachment_definition_created wA).2 = true :=
  c7_patch_after_attachment_present cfgA wA 5 stsPatchedA (by decide)

/-- C9: the Pebble service command references the fixed config path (the
fixed directory plus filename constant), the service environment is exactly
the single release-mode flag `GIN_MODE=release`, a completing
`_on_free5gc_amf_pebble_ready` declares exactly that layer, and every NAD
call issued by `_on_config_changed` or `_on_remove` addresses the single
well-known attachment name. -/
theorem c9_fixed_names :
    pebble_layer_command = "./amf -c " ++ BASE_CONFIG_PATH ++ "/" ++ CONFIG_FILE_NAME ∧
    strContains pebble_layer_command CONFIG_FILE_PATH = true ∧
    environment_variables = [("GIN_MODE", "release")] ∧
    environment_variables.length = 1 ∧
    (∀ w, (on_free5gc_amf_pebble_ready w).2.2 = Outcome.completed →
      (on_free5gc_amf_pebble_ready w).1 =
        [Call.addLayer pebble_layer_command environment_variables, Call.replan]) ∧
    (∀ cfg w, ((on_config_changed cfg w).1 ++ (on_remove w).1).all nadNameOk = true) := by
  refine ⟨rfl, by decide, rfl, rfl, ?_, ?_⟩
  · intro w h
    cases hcc : w.canConnect
    · simp [on_free5gc_amf_pebble_ready, hcc] at h
    · cases hw : config_file_is_written w
      · simp [on_free5gc_amf_pebble_ready, hcc, hw] at h
      · simp [on_free5gc_amf_pebble_ready, hcc, hw]
  · intro cfg w
    rw [List.all_append]
    rw [on_config_changed_nadNameOk, on_remove_nadNameOk]
    rfl

/-- Witness for C9: a connected world with the config file present gets
exactly the fixed layer declared, and the Scenario A traces address only the
well-known attachment name. -/
theorem c9_fixed_names_witness :
    (on_free5gc_amf_pebble_ready
        { wA with fs := { files := [(CONFIG_FILE_PATH, render "10.0.0.5")] } }).1 =
      [Call.addLayer pebble_layer_command environment_variables, Call.replan] ∧
    ((on_config_changed cfgA wA).1 ++ (on_remove wA).1).all nadNameOk = true :=
  ⟨c9_fixed_names.2.2.2.2.1 _ (by decide), c9_fixed_names.2.2.2.2.2 cfgA wA⟩

/-- C10: when the StatefulSet pod-template metadata has no annotations
mapping at all (Python `None`), the annotation-presence check raises a
`TypeError` instead of reporting the annotation absent, and the pass never
issues the merge patch; the check reports `False` only when an annotations
mapping exists and lacks the networks key. -/
theorem c10_annots_none_guard (cfg : Config) (w : World) :
    (w.cluster.sts = some { annots := none } →
      (annot_added_to_statefulset w).2 = Except.error CharmError.typeError ∧
      ∀ obj : StatefulSetObj, Call.patchSts obj ∉ (on_config_changed cfg w).1) ∧
    ((annot_added_to_statefulset w).2 = Except.ok false →
      ∃ m, w.cluster.sts = some { annots := some m } ∧
        NETWORKS_ANNOT_KEY ∉ m.map Prod.fst) := by
  constructor
  · intro hsts
    refine ⟨by simp [annot_added_to_statefulset, clientGetSts, hsts], ?_⟩
    intro obj
    cases hcc : w.canConnect
    · simp [on_config_changed, hcc]
    · rcases hfg : w.faults.getNad with _ | r <;>
      rcases hnad : w.cluster.nad with _ | n <;>
      rcases hfc : w.faults.createNad with _ | r2 <;>
      simp [on_config_changed, write_config_file, network_attachment_definition_created,
        create_network_attachement_definition, clientGetNad, clientCreateNad,
        on_config_changed_annot_step, annot_added_to_statefulset,
        add_statefulset_pod_network_annot, clientGetSts, clientPatchSts,
        hcc, hfg, hnad, hfc, hsts]
  · intro h
    rcases hsts : w.cluster.sts with _ | ⟨_ | m⟩
    · simp [annot_added_to_statefulset, clientGetSts, hsts] at h
    · simp [annot_added_to_statefulset, clientGetSts, hsts] at h
    · refine ⟨m, rfl, ?_⟩
      simp [annot_added_to_statefulset, clientGetSts, hsts] at h
      simpa using h

/-- Witness for C10: the concrete annotations-None world raises `TypeError`
and its pass contains no patch call; the Scenario A world, whose mapping is
the empty dict, reports the annotation absent. -/
theorem c10_annots_none_guard_witness :
    ((annot_added_to_statefulset wNoneAnnots).2 = Except.error CharmError.typeError ∧
      Call.patchSts stsPatchedA ∉ (on_config_changed cfgA wNoneAnnots).1) ∧
    (∃ m, wA.cluster.sts = some { annots := some m } ∧
      NETWORKS_ANNOT_KEY ∉ m.map Prod.fst) :=
  ⟨⟨((c10_annots_none_guard cfgA wNoneAnnots).1 rfl).1,
    ((c10_annots_none_guard cfgA wNoneAnnots).1 rfl).2 stsPatchedA⟩,
   (c10_annots_none_guard cfgA wA).2 (by rfl)⟩
